import Mathlib

/-!
Verification development for the nagger task-reminder service.

The Go sources are shallowly embedded:
* `internal/storage` (MongoDB-backed task and settings collections) becomes
  pure state-passing over lists of documents; `UpdateOne` with an `_id`
  filter becomes `updateFirst`, and a zero `MatchedCount` becomes
  `Except.error`, matching the "task not found" paths.
* `internal/scheduler` (reminder tick and message-retention sweep) becomes
  pure functions from a snapshot of the stores and the current time to the
  list of chats notified / the surviving tracking records.
* `internal/bot`'s settings-write boundary (`handleSetReminder`,
  `isValidTimeFormat`) becomes a function from the command arguments to the
  resulting settings store.

Wall-clock instants are naturals or integers counting minutes; time zones
are integer minute offsets from UTC, obtained from an abstract
`loadLoc : String → Option Int` standing for `time.LoadLocation` (`none`
is a resolution failure).
-/

set_option autoImplicit false

namespace Nagger

/-- Task status, from `internal/storage/user_settings.go` (second document):
the string constants active / completed_today / closed. -/
inductive TaskStatus where
  | active
  | completedToday
  | closed
deriving DecidableEq, Repr

/-- A stored task document (`storage.Task`). `status = none` models a legacy
MongoDB document whose status field is absent; `completedAt = none` models an
absent `completed_at` field (`omitempty` / `$unset`). -/
structure TaskDoc where
  id : Nat
  chatId : Int
  userId : Int
  description : String
  createdAt : Nat
  completed : Bool
  status : Option TaskStatus
  completedAt : Option Nat
deriving DecidableEq, Repr

/-- The tasks collection: a list of documents. -/
abbrev TaskStore := List TaskDoc

/-- Mongo `UpdateOne`: rewrite the first element satisfying the filter with
`f`; `none` when nothing matched (`MatchedCount == 0`). -/
def updateFirst {α : Type} (p : α → Bool) (f : α → α) : List α → Option (List α)
  | [] => none
  | a :: l => if p a then some (f a :: l) else (updateFirst p f l).map (fun l2 => a :: l2)

/-- AddTask (`mongodb.go`): stamp `CreatedAt`, force `Completed = false` and
`Status = active`, then insert; `newId` models the ObjectID Mongo assigns. -/
def addTask (now : Nat) (newId : Nat) (base : TaskDoc) (s : TaskStore) : TaskStore :=
  s ++ [{ base with id := newId, createdAt := now, completed := false, status := some TaskStatus.active }]

/-- CompleteTask (`mongodb.go`): `$set` completed, status = completed_today,
completed_at = now on the document with the given id; error when absent. -/
def completeTask (now : Nat) (taskID : Nat) (s : TaskStore) : Except String TaskStore :=
  match updateFirst (fun d => d.id == taskID)
      (fun d => { d with completed := true, status := some TaskStatus.completedToday, completedAt := some now }) s with
  | some s1 => Except.ok s1
  | none => Except.error "task not found"

/-- ReactivateTask (`mongodb.go`): `$set` completed = false, status = active
and `$unset` completed_at; error when the id is absent. -/
def reactivateTask (taskID : Nat) (s : TaskStore) : Except String TaskStore :=
  match updateFirst (fun d => d.id == taskID)
      (fun d => { d with completed := false, status := some TaskStatus.active, completedAt := none }) s with
  | some s1 => Except.ok s1
  | none => Except.error "task not found"

/-- CloseTask (`mongodb.go`): `$set` completed = true, status = closed;
error when the id is absent. -/
def closeTask (taskID : Nat) (s : TaskStore) : Except String TaskStore :=
  match updateFirst (fun d => d.id == taskID)
      (fun d => { d with completed := true, status := some TaskStatus.closed }) s with
  | some s1 => Except.ok s1
  | none => Except.error "task not found"

/-- The eligibility filter of GetAllActiveTasks / GetTasksByChatID: status is
not closed, or the status field is absent (the backward-compatibility
disjunct of the `$or`). -/
def eligibleTask (d : TaskDoc) : Bool :=
  !(d.status == some TaskStatus.closed) || d.status == none

/-- GetAllActiveTasks (`mongodb.go`): the group the returned map assigns to
chat `c` — the eligible documents whose chat_id is `c`, in collection
order. -/
def getAllActiveTasks (s : TaskStore) (c : Int) : List TaskDoc :=
  (s.filter eligibleTask).filter (fun d => d.chatId == c)

/-- A storage operation on the tasks collection, for stating invariants over
arbitrary operation sequences. The failing variants leave the store as is
(the Go methods return an error without writing). -/
inductive StoreOp where
  | add (now newId : Nat) (base : TaskDoc)
  | complete (now taskID : Nat)
  | reactivate (taskID : Nat)
  | close (taskID : Nat)

/-- Apply one storage operation; a not-found error leaves the store
unchanged. -/
def applyOp (s : TaskStore) : StoreOp → TaskStore
  | StoreOp.add now newId base => addTask now newId base s
  | StoreOp.complete now taskID =>
    match completeTask now taskID s with
    | Except.ok s1 => s1
    | Except.error _ => s
  | StoreOp.reactivate taskID =>
    match reactivateTask taskID s with
    | Except.ok s1 => s1
    | Except.error _ => s
  | StoreOp.close taskID =>
    match closeTask taskID s with
    | Except.ok s1 => s1
    | Except.error _ => s

/-- A stored user-settings document (`storage.UserSettings`). Timestamps are
integers. -/
structure SettingsDoc where
  id : Nat
  chatId : Int
  userId : Int
  reminderTime : String
  timezone : String
  createdAt : Int
  updatedAt : Int
deriving DecidableEq, Repr

/-- The user_settings collection. -/
abbrev SettingsStore := List SettingsDoc

/-- SetUserSettings (`mongodb.go`): `UpdateOne` with upsert on the chat_id
filter. A match gets `$set` of user_id, reminder_time, timezone, updated_at;
no match inserts a fresh document whose created_at comes from
`$setOnInsert` (both `time.Now()` calls in the method are the same instant
`now` here) and whose id is the Mongo-assigned `newId`. -/
def setUserSettings (now : Int) (newId : Nat) (chatId userId : Int) (rt tz : String)
    (s : SettingsStore) : SettingsStore :=
  match updateFirst (fun d => d.chatId == chatId)
      (fun d => { d with userId := userId, reminderTime := rt, timezone := tz, updatedAt := now }) s with
  | some s1 => s1
  | none => s ++ [{ id := newId, chatId := chatId, userId := userId, reminderTime := rt, timezone := tz, createdAt := now, updatedAt := now }]

/-- Split a character list at every colon, as Go strings.Split with a
single-character separator: commas of empty fields are kept, the empty
input gives one empty field. -/
def splitOnColon : List Char → List (List Char)
  | [] => [[]]
  | c :: rest =>
    let r := splitOnColon rest
    if c = ':' then [] :: r
    else
      match r with
      | [] => [[c]]
      | h :: t => (c :: h) :: t

/-- Decimal digit run to a number; `none` when empty or a non-digit
appears. -/
def digitsToNat : List Char → Option Nat
  | [] => none
  | l =>
    if l.all Char.isDigit then
      some (l.foldl (fun n c => n * 10 + (c.toNat - 48)) 0)
    else none

/-- Go strconv.Atoi on the characters of a field: an optional sign then a
nonempty digit run. Overflow is not modelled: every string this program
range-checks with it is rejected either way once its value exceeds 23. -/
def atoi (l : List Char) : Option Int :=
  match l with
  | '+' :: rest => (digitsToNat rest).map Int.ofNat
  | '-' :: rest => (digitsToNat rest).map (fun n => -(Int.ofNat n))
  | _ => (digitsToNat l).map Int.ofNat

/-- isValidTimeFormat (bot command handlers): split on the colon, demand
exactly two fields, Atoi each, and range-check hour 0..23, minute 0..59. -/
def isValidTimeFormat (timeStr : String) : Bool :=
  match splitOnColon timeStr.data with
  | [hs, ms] =>
    match atoi hs with
    | none => false
    | some hour =>
      if hour < 0 || hour > 23 then false
      else
        match atoi ms with
        | none => false
        | some minute => !(minute < 0 || minute > 59)
  | _ => false

/-- Strict reading of the spec invariant "reminderTime matches pattern
HH:MM with 00≤HH≤23, 00≤MM≤59": two digits, a colon, two digits, in
range. Stated from the spec wording, for comparison with the source's
`isValidTimeFormat`. -/
def specMatchesHHMM (s : String) : Bool :=
  match s.data with
  | [h1, h2, c, m1, m2] =>
    c = ':' && h1.isDigit && h2.isDigit && m1.isDigit && m2.isDigit &&
      ((h1.toNat - 48) * 10 + (h2.toNat - 48) ≤ 23) &&
      ((m1.toNat - 48) * 10 + (m2.toNat - 48) ≤ 59)
  | _ => false

/-- handleSetReminder (bot command handlers), restricted to its effect on
the settings store: empty arguments, an invalid time, or an explicit
timezone failing `isValidTimezone` (abstracted as `validTz`, Go
time.LoadLocation success) all return without writing; otherwise the
settings are upserted with timezone defaulting to UTC. -/
def handleSetReminder (validTz : String → Bool) (now : Int) (newId : Nat)
    (chatId userId : Int) (args : List String) (s : SettingsStore) : SettingsStore :=
  match args with
  | [] => s
  | rt :: rest =>
    if !isValidTimeFormat rt then s
    else
      match rest with
      | [] => setUserSettings now newId chatId userId rt "UTC" s
      | tz :: _ =>
        if !validTz tz then s
        else setUserSettings now newId chatId userId rt tz s

/-- The scheduler's view of one chat's settings
(`scheduler.UserSettings`). -/
structure SchedSettings where
  chatId : Int
  reminderTime : String
  timezone : String
deriving DecidableEq, Repr

/-- Decimal digit character. -/
def digitChar (n : Nat) : Char := Char.ofNat (48 + n % 10)

/-- Go layout "15:04" on a minute-of-day: zero-padded two-digit hour, a
colon, zero-padded two-digit minute. -/
def formatHHMM (m : Nat) : String :=
  String.mk [digitChar (m / 60 / 10), digitChar (m / 60 % 10), ':',
    digitChar (m % 60 / 10), digitChar (m % 60 % 10)]

/-- time.Now().In(loc) reduced to a minute of day: shift the UTC instant by
the zone offset and wrap at 24h. -/
def localMinutes (now : Nat) (offset : Int) : Nat :=
  (((now : Int) + offset) % 1440).toNat

/-- shouldSendReminderForUser (`scheduler.go`): resolve the timezone string,
fall back to the scheduler's default zone on failure, format now as HH:MM
in that zone and compare for string equality with the reminder time. -/
def shouldSendReminderForUser (loadLoc : String → Option Int) (defaultLoc : Int)
    (now : Nat) (reminderTime timezone : String) : Bool :=
  let loc := (loadLoc timezone).getD defaultLoc
  formatHHMM (localMinutes now loc) == reminderTime

/-- Loop body of sendReminders (`scheduler.go`) for one chat `p`: skip an
empty task group, resolve the reminder time and timezone (chat settings if
present, else the defaults — `defaultTzName` is
`s.defaultTimezone.String()`), and test `shouldSendReminderForUser`. -/
def chatShouldSend (loadLoc : String → Option Int) (defaultTime defaultTzName : String)
    (defaultLoc : Int) (now : Nat) (userSettings : Int → Option SchedSettings)
    (p : Int × List TaskDoc) : Bool :=
  !(p.2.isEmpty) &&
    (let rt := match userSettings p.1 with
      | some st => st.reminderTime
      | none => defaultTime
     let tz := match userSettings p.1 with
      | some st => st.timezone
      | none => defaultTzName
     shouldSendReminderForUser loadLoc defaultLoc now rt tz)

/-- sendReminders (`scheduler.go`): a failed task fetch aborts the tick with
no sends; a failed settings fetch degrades to the empty settings map. Each
chat with a nonempty task group is notified when `chatShouldSend` holds.
The result is the list of chat ids handed to the bot. -/
def sendReminders (loadLoc : String → Option Int) (defaultTime defaultTzName : String)
    (defaultLoc : Int) (now : Nat)
    (tasksResult : Except String (List (Int × List TaskDoc)))
    (settingsResult : Except String (Int → Option SchedSettings)) : List Int :=
  match tasksResult with
  | Except.error _ => []
  | Except.ok tasks =>
    let userSettings : Int → Option SchedSettings :=
      match settingsResult with
      | Except.ok m => m
      | Except.error _ => fun _ => none
    (tasks.filter
      (chatShouldSend loadLoc defaultTime defaultTzName defaultLoc now userSettings)).map Prod.fst

/-- A tracked bot message (`storage.BotMessage`). -/
structure BotMessage where
  id : Nat
  chatId : Int
  messageId : Int
  sentAt : Int
deriving DecidableEq, Repr

/-- The bot_messages tracking collection. -/
abbrev MessageStore := List BotMessage

/-- Modelled from the spec: the Message Tracking Store operation
`messagesOlderThan(cutoff)` (its MongoDB implementation is not under src/;
only the `MessageStorage` interface and the sweeper are). Returns the
tracked messages with sentAt strictly before the cutoff. -/
def getMessagesOlderThan (s : MessageStore) (olderThan : Int) : List BotMessage :=
  s.filter (fun m => m.sentAt < olderThan)

/-- Modelled from the spec: the Message Tracking Store operation
`untrack(messageId)` (its MongoDB implementation is not under src/).
Removes the tracking record with the given id. -/
def deleteBotMessage (s : MessageStore) (msgId : Nat) : MessageStore :=
  s.filter (fun m => !(m.id == msgId))

/-- Loop body of cleanupOldMessages for one queried message: attempt the
transport delete (its Bool result only feeds the success counter) and
remove the tracking record from the store either way. -/
def sweepStep (deleteMessage : Int → Int → Bool) (acc : MessageStore × Nat)
    (msg : BotMessage) : MessageStore × Nat :=
  let cnt := if deleteMessage msg.chatId msg.messageId then acc.2 + 1 else acc.2
  (deleteBotMessage acc.1 msg.id, cnt)

/-- cleanupOldMessages (`scheduler.go`, CleanupScheduler): query messages
older than now − messageAge, then fold `sweepStep` over them. Returns the
surviving store and the count of successful transport deletes. -/
def cleanupOldMessages (deleteMessage : Int → Int → Bool) (now messageAge : Int)
    (s : MessageStore) : MessageStore × Nat :=
  let cutoffTime := now - messageAge
  let messages := getMessagesOlderThan s cutoffTime
  if messages.isEmpty then (s, 0)
  else messages.foldl (sweepStep deleteMessage) (s, 0)

theorem updateFirst_nil {α : Type} (p : α → Bool) (f : α → α) :
    updateFirst p f [] = none := rfl

theorem updateFirst_cons {α : Type} (p : α → Bool) (f : α → α) (a : α) (l : List α) :
    updateFirst p f (a :: l)
      = if p a then some (f a :: l) else (updateFirst p f l).map (fun l2 => a :: l2) := rfl

theorem updateFirst_eq_none {α : Type} (p : α → Bool) (f : α → α) :
    ∀ l : List α, (∀ a ∈ l, p a = false) → updateFirst p f l = none := by
  intro l h
  induction l with
  | nil => rfl
  | cons a t ih =>
    have ha := h a (List.mem_cons_self a t)
    have ht := ih (fun b hb => h b (List.mem_cons_of_mem a hb))
    simp [updateFirst_cons, ha, ht]

theorem updateFirst_append {α : Type} (p : α → Bool) (f : α → α) (l₁ l₂ : List α) (d : α)
    (h₁ : ∀ a ∈ l₁, p a = false) (hd : p d = true) :
    updateFirst p f (l₁ ++ d :: l₂) = some (l₁ ++ f d :: l₂) := by
  induction l₁ with
  | nil => simp [updateFirst_cons, hd]
  | cons a t ih =>
    have ha := h₁ a (List.mem_cons_self a t)
    have ht := ih (fun b hb => h₁ b (List.mem_cons_of_mem a hb))
    simp [updateFirst_cons, ha, ht]

theorem updateFirst_eq_some {α : Type} {p : α → Bool} {f : α → α} :
    ∀ {l l' : List α}, updateFirst p f l = some l' →
      ∃ l₁ d l₂, l = l₁ ++ d :: l₂ ∧ (∀ a ∈ l₁, p a = false) ∧ p d = true ∧
        l' = l₁ ++ f d :: l₂ := by
  intro l
  induction l with
  | nil => intro l' h; simp [updateFirst_nil] at h
  | cons a t ih =>
    intro l' h
    by_cases hp : p a = true
    · rw [updateFirst_cons, if_pos hp] at h
      exact ⟨[], a, t, rfl, by simp, hp, by simpa using h.symm⟩
    · have hpf : p a = false := by simpa using hp
      rw [updateFirst_cons, if_neg hp] at h
      obtain ⟨t', ht', rfl⟩ := Option.map_eq_some'.mp h
      obtain ⟨l₁, d, l₂, rfl, h₁, hd, rfl⟩ := ih ht'
      refine ⟨a :: l₁, d, l₂, rfl, ?_, hd, rfl⟩
      intro b hb
      rcases List.mem_cons.mp hb with rfl | hb
      · exact hpf
      · exact h₁ b hb

theorem updateFirst_isSome {α : Type} (p : α → Bool) (f : α → α) :
    ∀ l : List α, (∃ d ∈ l, p d = true) → ∃ l', updateFirst p f l = some l' := by
  intro l h
  induction l with
  | nil => simp at h
  | cons a t ih =>
    by_cases hp : p a = true
    · exact ⟨f a :: t, by rw [updateFirst_cons, if_pos hp]⟩
    · have hpf : p a = false := by simpa using hp
      obtain ⟨d, hd, hpd⟩ := h
      rcases List.mem_cons.mp hd with rfl | hd
      · exact absurd hpd hp
      · obtain ⟨t', ht'⟩ := ih ⟨d, hd, hpd⟩
        exact ⟨a :: t', by rw [updateFirst_cons, if_neg hp, ht']; rfl⟩

theorem updateFirst_mem {α : Type} {p : α → Bool} {f : α → α} {l l' : List α}
    (h : updateFirst p f l = some l') {d' : α} (hd' : d' ∈ l') :
    d' ∈ l ∨ ∃ d, d ∈ l ∧ p d = true ∧ d' = f d := by
  obtain ⟨l₁, d, l₂, rfl, h₁, hd, rfl⟩ := updateFirst_eq_some h
  rcases List.mem_append.mp hd' with hmem | hmem
  · exact Or.inl (List.mem_append.mpr (Or.inl hmem))
  · rcases List.mem_cons.mp hmem with rfl | hmem
    · exact Or.inr ⟨d, List.mem_append.mpr (Or.inr (List.mem_cons_self d l₂)), hd, rfl⟩
    · exact Or.inl (List.mem_append.mpr (Or.inr (List.mem_cons_of_mem d hmem)))

theorem completeTask_ok {now taskID : Nat} {s s1 : TaskStore}
    (h : completeTask now taskID s = Except.ok s1) :
    updateFirst (fun d => d.id == taskID)
      (fun d => { d with completed := true, status := some TaskStatus.completedToday, completedAt := some now }) s = some s1 := by
  unfold completeTask at h
  revert h
  cases hup : updateFirst (fun d => d.id == taskID)
      (fun d => { d with completed := true, status := some TaskStatus.completedToday, completedAt := some now }) s with
  | none => intro h; simp at h
  | some x => intro h; simp at h; rw [h]

theorem completeTask_eq_ok {now taskID : Nat} {s s1 : TaskStore}
    (hup : updateFirst (fun d => d.id == taskID)
      (fun d => { d with completed := true, status := some TaskStatus.completedToday, completedAt := some now }) s = some s1) :
    completeTask now taskID s = Except.ok s1 := by
  unfold completeTask; rw [hup]

theorem reactivateTask_ok {taskID : Nat} {s s1 : TaskStore}
    (h : reactivateTask taskID s = Except.ok s1) :
    updateFirst (fun d => d.id == taskID)
      (fun d => { d with completed := false, status := some TaskStatus.active, completedAt := none }) s = some s1 := by
  unfold reactivateTask at h
  revert h
  cases hup : updateFirst (fun d => d.id == taskID)
      (fun d => { d with completed := false, status := some TaskStatus.active, completedAt := none }) s with
  | none => intro h; simp at h
  | some x => intro h; simp at h; rw [h]

theorem reactivateTask_eq_ok {taskID : Nat} {s s1 : TaskStore}
    (hup : updateFirst (fun d => d.id == taskID)
      (fun d => { d with completed := false, status := some TaskStatus.active, completedAt := none }) s = some s1) :
    reactivateTask taskID s = Except.ok s1 := by
  unfold reactivateTask; rw [hup]

theorem closeTask_ok {taskID : Nat} {s s1 : TaskStore}
    (h : closeTask taskID s = Except.ok s1) :
    updateFirst (fun d => d.id == taskID)
      (fun d => { d with completed := true, status := some TaskStatus.closed }) s = some s1 := by
  unfold closeTask at h
  revert h
  cases hup : updateFirst (fun d => d.id == taskID)
      (fun d => { d with completed := true, status := some TaskStatus.closed }) s with
  | none => intro h; simp at h
  | some x => intro h; simp at h; rw [h]

/-- C1 counterexample: on a one-task store, CloseTask succeeds, and a
subsequent CompleteTask on the same id is neither rejected nor a no-op —
it succeeds and moves the status from Closed to CompletedToday, so the
status does not remain Closed. -/
theorem closed_not_terminal_cex :
    closeTask 1 [⟨1, 10, 20, "t", 0, false, some TaskStatus.active, none⟩]
      = Except.ok [⟨1, 10, 20, "t", 0, true, some TaskStatus.closed, none⟩] ∧
    completeTask 5 1 [⟨1, 10, 20, "t", 0, true, some TaskStatus.closed, none⟩]
      = Except.ok [⟨1, 10, 20, "t", 0, true, some TaskStatus.completedToday, some 5⟩] ∧
    some TaskStatus.completedToday ≠ some TaskStatus.closed :=
  ⟨rfl, rfl, by decide⟩

/-- C1 (amended): the store does not make Closed terminal. After CloseTask
succeeds on an id, CompleteTask on that id succeeds and sets the status to
CompletedToday, and ReactivateTask on that id succeeds and sets the status
to Active; closed-is-terminal is a command-layer convention, not enforced
by these storage operations. -/
theorem closeTask_not_terminal (s s₀ : TaskStore) (taskID now : Nat)
    (hclose : closeTask taskID s = Except.ok s₀) :
    (∃ s₁, completeTask now taskID s₀ = Except.ok s₁ ∧
      ∃ d, d ∈ s₁ ∧ d.id = taskID ∧ d.status = some TaskStatus.completedToday) ∧
    (∃ s₂, reactivateTask taskID s₀ = Except.ok s₂ ∧
      ∃ d, d ∈ s₂ ∧ d.id = taskID ∧ d.status = some TaskStatus.active) := by
  obtain ⟨l₁, d, l₂, hs, h₁, hd, hs₀⟩ := updateFirst_eq_some (closeTask_ok hclose)
  have hdid : d.id = taskID := by simpa using hd
  constructor
  · have hcomp := updateFirst_append (fun a : TaskDoc => a.id == taskID)
      (fun a : TaskDoc => { a with completed := true, status := some TaskStatus.completedToday, completedAt := some now })
      l₁ l₂ ({ d with completed := true, status := some TaskStatus.closed }) h₁ (by simpa using hdid)
    rw [← hs₀] at hcomp
    exact ⟨_, completeTask_eq_ok hcomp,
      _, List.mem_append.mpr (Or.inr (List.mem_cons_self _ _)), hdid, rfl⟩
  · have hre := updateFirst_append (fun a : TaskDoc => a.id == taskID)
      (fun a : TaskDoc => { a with completed := false, status := some TaskStatus.active, completedAt := none })
      l₁ l₂ ({ d with completed := true, status := some TaskStatus.closed }) h₁ (by simpa using hdid)
    rw [← hs₀] at hre
    exact ⟨_, reactivateTask_eq_ok hre,
      _, List.mem_append.mpr (Or.inr (List.mem_cons_self _ _)), hdid, rfl⟩

/-- C1 witness: the amended theorem applied to the concrete one-task
store. -/
theorem closeTask_not_terminal_witness :
    (∃ s₁, completeTask 5 1 [⟨1, 10, 20, "t", 0, true, some TaskStatus.closed, none⟩] = Except.ok s₁ ∧
      ∃ d, d ∈ s₁ ∧ d.id = 1 ∧ d.status = some TaskStatus.completedToday) ∧
    (∃ s₂, reactivateTask 1 [⟨1, 10, 20, "t", 0, true, some TaskStatus.closed, none⟩] = Except.ok s₂ ∧
      ∃ d, d ∈ s₂ ∧ d.id = 1 ∧ d.status = some TaskStatus.active) :=
  closeTask_not_terminal [⟨1, 10, 20, "t", 0, false, some TaskStatus.active, none⟩] _ 1 5 rfl

/-- C3: GetAllActiveTasks never returns a Closed task under any chat id,
and a legacy document with no status field is returned for its own chat
(treated as eligible). -/
theorem getAllActiveTasks_no_closed (s : TaskStore) (c : Int) :
    (∀ d ∈ getAllActiveTasks s c, d.status ≠ some TaskStatus.closed) ∧
    (∀ d ∈ s, d.status = none → d.chatId = c → d ∈ getAllActiveTasks s c) := by
  constructor
  · intro d hd hclosed
    have h1 := (List.mem_filter.mp hd).1
    have h2 := (List.mem_filter.mp h1).2
    rw [eligibleTask, hclosed] at h2
    simp at h2
  · intro d hd hnone hchat
    refine List.mem_filter.mpr ⟨List.mem_filter.mpr ⟨hd, ?_⟩, ?_⟩
    · rw [eligibleTask, hnone]; rfl
    · simp [hchat]

/-- C3 witness: on a store holding one closed and one legacy
(status-field-less) document for chat 5, the legacy document is in the
output for chat 5 and is not closed. -/
theorem getAllActiveTasks_no_closed_witness :
    (⟨2, (5 : Int), 0, "y", 0, false, none, none⟩ : TaskDoc) ∈
      getAllActiveTasks [⟨1, 5, 0, "x", 0, true, some TaskStatus.closed, none⟩,
        ⟨2, 5, 0, "y", 0, false, none, none⟩] 5 ∧
    (⟨2, (5 : Int), 0, "y", 0, false, none, none⟩ : TaskDoc).status ≠ some TaskStatus.closed := by
  have hmem := (getAllActiveTasks_no_closed
    [⟨1, 5, 0, "x", 0, true, some TaskStatus.closed, none⟩,
      ⟨2, 5, 0, "y", 0, false, none, none⟩] 5).2
    ⟨2, 5, 0, "y", 0, false, none, none⟩ (by decide) rfl rfl
  exact ⟨hmem, (getAllActiveTasks_no_closed _ 5).1 _ hmem⟩

/-- C4: on a task whose status is Active with no completedAt, CompleteTask
followed by ReactivateTask succeeds and restores status Active and a clear
completedAt; when the deprecated completed flag was false as well (as every
AddTask-created Active task has it), the round trip restores the entire
store exactly. -/
theorem complete_reactivate_roundtrip (s : TaskStore) (taskID now : Nat)
    (hmem : ∃ d ∈ s, (d.id == taskID) = true)
    (hfields : ∀ d ∈ s, (d.id == taskID) = true →
      d.status = some TaskStatus.active ∧ d.completedAt = none) :
    ∃ s₁, completeTask now taskID s = Except.ok s₁ ∧
      ∃ s₂, reactivateTask taskID s₁ = Except.ok s₂ ∧
        (∀ d ∈ s₂, (d.id == taskID) = true →
          d.status = some TaskStatus.active ∧ d.completedAt = none) ∧
        ((∀ d ∈ s, (d.id == taskID) = true → d.completed = false) → s₂ = s) := by
  obtain ⟨s₁, hs₁⟩ := updateFirst_isSome (fun d : TaskDoc => d.id == taskID)
    (fun d : TaskDoc => { d with completed := true, status := some TaskStatus.completedToday, completedAt := some now }) s hmem
  obtain ⟨l₁, d, l₂, hs, h₁, hd, hs₁eq⟩ := updateFirst_eq_some hs₁
  have hre := updateFirst_append (fun a : TaskDoc => a.id == taskID)
    (fun a : TaskDoc => { a with completed := false, status := some TaskStatus.active, completedAt := none })
    l₁ l₂ ({ d with completed := true, status := some TaskStatus.completedToday, completedAt := some now }) h₁ hd
  rw [← hs₁eq] at hre
  refine ⟨s₁, completeTask_eq_ok hs₁, _, reactivateTask_eq_ok hre, ?_, ?_⟩
  · intro d2 hd2 hid2
    rcases List.mem_append.mp hd2 with hmem2 | hmem2
    · exact absurd hid2 (by simp [h₁ d2 hmem2])
    · rcases List.mem_cons.mp hmem2 with rfl | hmem2
      · exact ⟨rfl, rfl⟩
      · exact hfields d2 (hs ▸ List.mem_append.mpr (Or.inr (List.mem_cons_of_mem d hmem2))) hid2
  · intro hflag
    have hdmem : d ∈ s := hs ▸ List.mem_append.mpr (Or.inr (List.mem_cons_self d l₂))
    have hstat := hfields d hdmem hd
    have hcomp := hflag d hdmem hd
    have hrestored :
        ({ d with completed := false, status := some TaskStatus.active, completedAt := none } : TaskDoc) = d := by
      rcases d with ⟨i, ch, u, de, ca, co, st, cat⟩
      simp only at hstat hcomp
      simp [hstat.1, hstat.2, hcomp]
    rw [hs]
    exact congrArg (fun x => l₁ ++ x :: l₂) hrestored

/-- C4 witness: the round trip applied to a concrete one-task store with an
Active, uncompleted task restores the store exactly. -/
theorem complete_reactivate_roundtrip_witness :
    ∃ s₁, completeTask 7 1 [⟨1, 10, 20, "t", 0, false, some TaskStatus.active, none⟩] = Except.ok s₁ ∧
      ∃ s₂, reactivateTask 1 s₁ = Except.ok s₂ ∧
        (∀ d ∈ s₂, (d.id == 1) = true →
          d.status = some TaskStatus.active ∧ d.completedAt = none) ∧
        ((∀ d ∈ [(⟨1, 10, 20, "t", 0, false, some TaskStatus.active, none⟩ : TaskDoc)],
            (d.id == 1) = true → d.completed = false) →
          s₂ = [⟨1, 10, 20, "t", 0, false, some TaskStatus.active, none⟩]) :=
  complete_reactivate_roundtrip [⟨1, 10, 20, "t", 0, false, some TaskStatus.active, none⟩] 1 7
    (by decide) (by decide)

theorem applyOp_flag (s : TaskStore) (op : StoreOp)
    (h : ∀ d ∈ s, (d.completed = true ↔ d.status ≠ some TaskStatus.active)) :
    ∀ d ∈ applyOp s op, (d.completed = true ↔ d.status ≠ some TaskStatus.active) := by
  intro d hd
  cases op with
  | add now newId base =>
    simp only [applyOp, addTask] at hd
    rcases List.mem_append.mp hd with h1 | h1
    · exact h d h1
    · rw [List.mem_singleton.mp h1]; simp
  | complete now taskID =>
    revert hd
    simp only [applyOp]
    cases hc : completeTask now taskID s with
    | ok s1 =>
      intro hd
      rcases updateFirst_mem (completeTask_ok hc) hd with h1 | ⟨d0, hd0, hp, rfl⟩
      · exact h d h1
      · simp
    | error e => intro hd; exact h d hd
  | reactivate taskID =>
    revert hd
    simp only [applyOp]
    cases hc : reactivateTask taskID s with
    | ok s1 =>
      intro hd
      rcases updateFirst_mem (reactivateTask_ok hc) hd with h1 | ⟨d0, hd0, hp, rfl⟩
      · exact h d h1
      · simp
    | error e => intro hd; exact h d hd
  | close taskID =>
    revert hd
    simp only [applyOp]
    cases hc : closeTask taskID s with
    | ok s1 =>
      intro hd
      rcases updateFirst_mem (closeTask_ok hc) hd with h1 | ⟨d0, hd0, hp, rfl⟩
      · exact h d h1
      · simp
    | error e => intro hd; exact h d hd

theorem foldl_applyOp_flag (ops : List StoreOp) :
    ∀ s : TaskStore, (∀ d ∈ s, (d.completed = true ↔ d.status ≠ some TaskStatus.active)) →
      ∀ d ∈ List.foldl applyOp s ops, (d.completed = true ↔ d.status ≠ some TaskStatus.active) := by
  induction ops with
  | nil => intro s h; simpa using h
  | cons op t ih => intro s h; exact ih (applyOp s op) (applyOp_flag s op h)

/-- C10: in any store reachable from the empty store through AddTask,
CompleteTask, ReactivateTask and CloseTask, every document's deprecated
completed flag equals (status is not Active): AddTask writes false with
Active, CompleteTask and CloseTask write true with a non-Active status,
ReactivateTask writes false with Active. -/
theorem completed_flag_matches_status (ops : List StoreOp) (d : TaskDoc)
    (hd : d ∈ List.foldl applyOp [] ops) :
    d.completed = true ↔ d.status ≠ some TaskStatus.active :=
  foldl_applyOp_flag ops [] (by simp) d hd

/-- C10 witness: the flag invariant read off the store produced by an
AddTask followed by a CompleteTask. -/
theorem completed_flag_matches_status_witness :
    ((⟨1, 10, 20, "t", 0, true, some TaskStatus.completedToday, some 3⟩ : TaskDoc) ∈
      List.foldl applyOp []
        [StoreOp.add 0 1 ⟨0, 10, 20, "t", 0, false, none, none⟩, StoreOp.complete 3 1]) ∧
    ((⟨1, 10, 20, "t", 0, true, some TaskStatus.completedToday, some 3⟩ : TaskDoc).completed = true ↔
      (⟨1, 10, 20, "t", 0, true, some TaskStatus.completedToday, some 3⟩ : TaskDoc).status
        ≠ some TaskStatus.active) :=
  ⟨by decide,
    completed_flag_matches_status
      [StoreOp.add 0 1 ⟨0, 10, 20, "t", 0, false, none, none⟩, StoreOp.complete 3 1]
      ⟨1, 10, 20, "t", 0, true, some TaskStatus.completedToday, some 3⟩ (by decide)⟩

/-- C6: starting from a store with no record for a chat id, two
SetUserSettings calls for that chat leave exactly one record for it: the
first call inserts it (createdAt is the first call's time and it keeps the
Mongo-assigned id), the second updates it in place, overwriting userId,
reminderTime, timezone and bumping updatedAt to the second call's time,
without creating a duplicate. -/
theorem setUserSettings_twice (s : SettingsStore) (c u1 u2 : Int)
    (rt1 tz1 rt2 tz2 : String) (t1 t2 : Int) (id1 id2 : Nat)
    (hnone : ∀ d ∈ s, d.chatId ≠ c) :
    (setUserSettings t2 id2 c u2 rt2 tz2 (setUserSettings t1 id1 c u1 rt1 tz1 s)).filter
        (fun d => d.chatId == c)
      = [⟨id1, c, u2, rt2, tz2, t1, t2⟩] := by
  have hfalse : ∀ d ∈ s, ((fun d : SettingsDoc => d.chatId == c) d) = false :=
    fun d hd => by simp [hnone d hd]
  have h1 : setUserSettings t1 id1 c u1 rt1 tz1 s = s ++ [⟨id1, c, u1, rt1, tz1, t1, t1⟩] := by
    unfold setUserSettings
    rw [updateFirst_eq_none _ _ s hfalse]
  have hup2 : updateFirst (fun d : SettingsDoc => d.chatId == c)
      (fun d => { d with userId := u2, reminderTime := rt2, timezone := tz2, updatedAt := t2 })
      (s ++ [⟨id1, c, u1, rt1, tz1, t1, t1⟩])
      = some (s ++ [⟨id1, c, u2, rt2, tz2, t1, t2⟩]) := by
    exact updateFirst_append _ _ s [] ⟨id1, c, u1, rt1, tz1, t1, t1⟩ hfalse (by simp)
  have h2 : setUserSettings t2 id2 c u2 rt2 tz2 (s ++ [⟨id1, c, u1, rt1, tz1, t1, t1⟩])
      = s ++ [⟨id1, c, u2, rt2, tz2, t1, t2⟩] := by
    unfold setUserSettings; rw [hup2]
  rw [h1, h2, List.filter_append]
  have hnil : s.filter (fun d : SettingsDoc => d.chatId == c) = [] :=
    List.filter_eq_nil_iff.mpr (fun a ha => by simp [hnone a ha])
  rw [hnil]
  simp

/-- C6 witness: two concrete SetUserSettings calls on the empty store leave
one record with the second call's fields and the first call's id and
createdAt. -/
theorem setUserSettings_twice_witness :
    (setUserSettings 2 9 5 21 "10:30" "UTC"
        (setUserSettings 1 4 5 20 "09:00" "Europe/London" [])).filter
        (fun d => d.chatId == 5)
      = [⟨4, 5, 21, "10:30", "UTC", 1, 2⟩] :=
  setUserSettings_twice [] 5 20 21 "09:00" "Europe/London" "10:30" "UTC" 1 2 4 9 (by simp)

theorem localMinutes_utc (now : Nat) : localMinutes now 0 = now % 1440 := by
  unfold localMinutes
  omega

theorem count_map_fst_filter {β : Type} (p : Int × β → Bool) (c : Int) (ts : β) :
    ∀ l : List (Int × β), (l.map Prod.fst).Nodup → (c, ts) ∈ l →
      ((l.filter p).map Prod.fst).count c = if p (c, ts) = true then 1 else 0 := by
  intro l
  induction l with
  | nil => intro _ h; cases h
  | cons a t ih =>
    intro hnd hmem
    rw [List.map_cons] at hnd
    obtain ⟨hnotin, hndt⟩ := List.nodup_cons.mp hnd
    rcases List.mem_cons.mp hmem with heq | hmem2
    · subst heq
      have h0 : c ∉ (t.filter p).map Prod.fst := by
        intro hc
        obtain ⟨x, hx, hfx⟩ := List.mem_map.mp hc
        exact hnotin (List.mem_map.mpr ⟨x, (List.mem_filter.mp hx).1, hfx⟩)
      by_cases hp : p (c, ts) = true
      · rw [List.filter_cons, if_pos hp, List.map_cons, if_pos hp, List.count_cons_self,
          List.count_eq_zero.mpr h0]
      · rw [List.filter_cons, if_neg hp, if_neg hp]
        exact List.count_eq_zero.mpr h0
    · have hac : c ≠ a.1 := by
        intro h
        apply hnotin
        rw [← h]
        exact List.mem_map.mpr ⟨(c, ts), hmem2, rfl⟩
      rw [List.filter_cons]
      by_cases hpa : p a = true
      · rw [if_pos hpa, List.map_cons, List.count_cons_of_ne hac]
        exact ih hndt hmem2
      · rw [if_neg hpa]
        exact ih hndt hmem2

/-- C2: for a chat with a nonempty task group and resolved settings
reminderTime 09:00 in UTC (offset 0), a tick sends exactly one reminder to
that chat when the current minute of day formats to 09:00 (minute 540),
and none at 09:01 (541) or 08:59 (539): the trigger is exact string
equality of the formatted time with the configured reminder time. -/
theorem reminder_fires_exactly_at_configured_minute (loadLoc : String → Option Int)
    (defaultTime defaultTzName : String) (defaultLoc : Int) (now : Nat)
    (tasks : List (Int × List TaskDoc)) (m : Int → Option SchedSettings)
    (c : Int) (ts : List TaskDoc)
    (hnd : (tasks.map Prod.fst).Nodup) (hmem : (c, ts) ∈ tasks) (hts : ts ≠ [])
    (hset : m c = some ⟨c, "09:00", "UTC"⟩) (hutc : loadLoc "UTC" = some 0) :
    (now % 1440 = 540 →
      (sendReminders loadLoc defaultTime defaultTzName defaultLoc now
        (Except.ok tasks) (Except.ok m)).count c = 1) ∧
    (now % 1440 = 541 →
      (sendReminders loadLoc defaultTime defaultTzName defaultLoc now
        (Except.ok tasks) (Except.ok m)).count c = 0) ∧
    (now % 1440 = 539 →
      (sendReminders loadLoc defaultTime defaultTzName defaultLoc now
        (Except.ok tasks) (Except.ok m)).count c = 0) := by
  have hcount := count_map_fst_filter
    (chatShouldSend loadLoc defaultTime defaultTzName defaultLoc now m) c ts tasks hnd hmem
  have hsend : sendReminders loadLoc defaultTime defaultTzName defaultLoc now
      (Except.ok tasks) (Except.ok m)
      = (tasks.filter
          (chatShouldSend loadLoc defaultTime defaultTzName defaultLoc now m)).map Prod.fst := rfl
  have hempty : ts.isEmpty = false := by
    cases ts with
    | nil => exact absurd rfl hts
    | cons a l => rfl
  have hpred : chatShouldSend loadLoc defaultTime defaultTzName defaultLoc now m (c, ts)
      = (formatHHMM (now % 1440) == "09:00") := by
    unfold chatShouldSend shouldSendReminderForUser
    rw [hset]
    simp only [hempty, hutc, Option.getD_some, localMinutes_utc, Bool.not_false, Bool.true_and]
  refine ⟨fun h => ?_, fun h => ?_, fun h => ?_⟩ <;>
    rw [hsend, hcount, hpred, h] <;> decide

/-- C2 witness: one chat with one eligible task and settings 09:00 UTC;
the tick at minute 540 sends once, at 541 and 539 it sends nothing. -/
theorem reminder_fires_exactly_at_configured_minute_witness :
    ((sendReminders (fun tz => if tz = "UTC" then some 0 else none) "08:00" "UTC" 0 540
      (Except.ok [((1 : Int), [⟨1, 1, 2, "t", 0, false, some TaskStatus.active, none⟩])])
      (Except.ok (fun c => if c = 1 then some ⟨1, "09:00", "UTC"⟩ else none))).count 1 = 1) ∧
    ((sendReminders (fun tz => if tz = "UTC" then some 0 else none) "08:00" "UTC" 0 541
      (Except.ok [((1 : Int), [⟨1, 1, 2, "t", 0, false, some TaskStatus.active, none⟩])])
      (Except.ok (fun c => if c = 1 then some ⟨1, "09:00", "UTC"⟩ else none))).count 1 = 0) ∧
    ((sendReminders (fun tz => if tz = "UTC" then some 0 else none) "08:00" "UTC" 0 539
      (Except.ok [((1 : Int), [⟨1, 1, 2, "t", 0, false, some TaskStatus.active, none⟩])])
      (Except.ok (fun c => if c = 1 then some ⟨1, "09:00", "UTC"⟩ else none))).count 1 = 0) :=
  ⟨(reminder_fires_exactly_at_configured_minute (fun tz => if tz = "UTC" then some 0 else none)
      "08:00" "UTC" 0 540 _ _ 1 [⟨1, 1, 2, "t", 0, false, some TaskStatus.active, none⟩]
      (by decide) (by decide) (by decide) (by decide) (by decide)).1 (by decide),
    ((reminder_fires_exactly_at_configured_minute (fun tz => if tz = "UTC" then some 0 else none)
      "08:00" "UTC" 0 541 _ _ 1 [⟨1, 1, 2, "t", 0, false, some TaskStatus.active, none⟩]
      (by decide) (by decide) (by decide) (by decide) (by decide)).2).1 (by decide),
    ((reminder_fires_exactly_at_configured_minute (fun tz => if tz = "UTC" then some 0 else none)
      "08:00" "UTC" 0 539 _ _ 1 [⟨1, 1, 2, "t", 0, false, some TaskStatus.active, none⟩]
      (by decide) (by decide) (by decide) (by decide) (by decide)).2).2 (by decide)⟩

/-- C8: when a chat's configured timezone string fails to resolve, the
per-chat check evaluates with the scheduler's default zone, and the whole
tick is unchanged from a tick in which that chat's timezone is replaced by
the (resolvable) default timezone name — every chat, including this one,
is still processed. -/
theorem invalid_timezone_falls_back (loadLoc : String → Option Int)
    (defaultTime defaultTzName : String) (defaultLoc : Int) (now : Nat)
    (tasks : List (Int × List TaskDoc)) (m : Int → Option SchedSettings)
    (c : Int) (st : SchedSettings)
    (hset : m c = some st) (hbad : loadLoc st.timezone = none)
    (hdef : loadLoc defaultTzName = some defaultLoc) :
    shouldSendReminderForUser loadLoc defaultLoc now st.reminderTime st.timezone
      = (formatHHMM (localMinutes now defaultLoc) == st.reminderTime) ∧
    sendReminders loadLoc defaultTime defaultTzName defaultLoc now
        (Except.ok tasks) (Except.ok m)
      = sendReminders loadLoc defaultTime defaultTzName defaultLoc now
        (Except.ok tasks)
        (Except.ok (fun x => if x = c then some { st with timezone := defaultTzName } else m x)) := by
  constructor
  · unfold shouldSendReminderForUser
    rw [hbad]
    rfl
  · show (tasks.filter
        (chatShouldSend loadLoc defaultTime defaultTzName defaultLoc now m)).map Prod.fst = _
    have hcongr : ∀ p ∈ tasks,
        chatShouldSend loadLoc defaultTime defaultTzName defaultLoc now m p
          = chatShouldSend loadLoc defaultTime defaultTzName defaultLoc now
              (fun x => if x = c then some { st with timezone := defaultTzName } else m x) p := by
      intro p _
      by_cases hc : p.1 = c
      · unfold chatShouldSend shouldSendReminderForUser
        rw [hc]
        simp [hset, hbad, hdef]
      · unfold chatShouldSend
        simp [hc]
    rw [List.filter_congr hcongr]
    rfl

/-- C8 witness: the fallback applied to a chat whose configured zone name
does not resolve, against a loader that only resolves UTC. -/
theorem invalid_timezone_falls_back_witness :
    shouldSendReminderForUser (fun tz => if tz = "UTC" then some 0 else none) 0 540
        "09:00" "Mars/Olympus"
      = (formatHHMM (localMinutes 540 0) == "09:00") ∧
    sendReminders (fun tz => if tz = "UTC" then some 0 else none) "08:00" "UTC" 0 540
        (Except.ok [((1 : Int), [⟨1, 1, 2, "t", 0, false, some TaskStatus.active, none⟩])])
        (Except.ok (fun c => if c = 1 then some ⟨1, "09:00", "Mars/Olympus"⟩ else none))
      = sendReminders (fun tz => if tz = "UTC" then some 0 else none) "08:00" "UTC" 0 540
        (Except.ok [((1 : Int), [⟨1, 1, 2, "t", 0, false, some TaskStatus.active, none⟩])])
        (Except.ok (fun x => if x = 1 then
          some { chatId := (1 : Int), reminderTime := "09:00", timezone := "UTC" }
          else (fun c => if c = 1 then some ⟨1, "09:00", "Mars/Olympus"⟩ else none) x)) :=
  invalid_timezone_falls_back (fun tz => if tz = "UTC" then some 0 else none) "08:00" "UTC" 0 540
    [((1 : Int), [⟨1, 1, 2, "t", 0, false, some TaskStatus.active, none⟩])]
    (fun c => if c = 1 then some ⟨1, "09:00", "Mars/Olympus"⟩ else none) 1
    ⟨1, "09:00", "Mars/Olympus"⟩ (by decide) (by decide) (by decide)

/-- C9: when the batch settings fetch fails, the tick proceeds exactly as
with an empty settings set, and every chat with a nonempty task group is
evaluated against the process-wide default reminder time and default
timezone name. -/
theorem settings_fetch_failure_uses_defaults (loadLoc : String → Option Int)
    (defaultTime defaultTzName : String) (defaultLoc : Int) (now : Nat)
    (tasks : List (Int × List TaskDoc)) (e : String) :
    sendReminders loadLoc defaultTime defaultTzName defaultLoc now
        (Except.ok tasks) (Except.error e)
      = sendReminders loadLoc defaultTime defaultTzName defaultLoc now
        (Except.ok tasks) (Except.ok (fun _ => none)) ∧
    sendReminders loadLoc defaultTime defaultTzName defaultLoc now
        (Except.ok tasks) (Except.error e)
      = (tasks.filter (fun p => !(p.2.isEmpty) &&
          shouldSendReminderForUser loadLoc defaultLoc now defaultTime defaultTzName)).map
          Prod.fst :=
  ⟨rfl, rfl⟩

theorem sweepFold_mem (del : Int → Int → Bool) :
    ∀ (msgs : List BotMessage) (acc : MessageStore × Nat) (d : BotMessage),
      d ∈ (msgs.foldl (sweepStep del) acc).1 → d ∈ acc.1 := by
  intro msgs
  induction msgs with
  | nil => intro acc d hd; simpa using hd
  | cons msg t ih =>
    intro acc d hd
    rw [List.foldl_cons] at hd
    exact List.mem_of_mem_filter (ih (sweepStep del acc msg) d hd)

theorem sweepFold_removes (del : Int → Int → Bool) :
    ∀ (msgs : List BotMessage) (acc : MessageStore × Nat) (m : BotMessage), m ∈ msgs →
      ∀ d ∈ (msgs.foldl (sweepStep del) acc).1, d.id ≠ m.id := by
  intro msgs
  induction msgs with
  | nil => intro acc m hm; cases hm
  | cons msg t ih =>
    intro acc m hm d hd
    rcases List.mem_cons.mp hm with rfl | hm2
    · rw [List.foldl_cons] at hd
      have hmem := sweepFold_mem del t (sweepStep del acc m) d hd
      have := (List.mem_filter.mp hmem).2
      simpa using this
    · rw [List.foldl_cons] at hd
      exact ih (sweepStep del acc msg) m hm2 d hd

/-- C5: for every tracked message returned by the sweep's
messagesOlderThan query, after one sweep no record with its id remains in
the tracking store — `del` is an arbitrary transport-delete outcome
function, covering both success and failure; and in particular a message
with sentAt = now − 2×TTL (TTL positive) is returned by the query at
cutoff now − TTL and is so removed. -/
theorem sweep_untracks_regardless_of_delete (del : Int → Int → Bool) (now ttl : Int)
    (s : MessageStore) :
    (∀ msg ∈ getMessagesOlderThan s (now - ttl),
      ∀ d ∈ (cleanupOldMessages del now ttl s).1, d.id ≠ msg.id) ∧
    (∀ msg ∈ s, msg.sentAt = now - 2 * ttl → 0 < ttl →
      msg ∈ getMessagesOlderThan s (now - ttl) ∧
      ∀ d ∈ (cleanupOldMessages del now ttl s).1, d.id ≠ msg.id) := by
  have hmain : ∀ msg ∈ getMessagesOlderThan s (now - ttl),
      ∀ d ∈ (cleanupOldMessages del now ttl s).1, d.id ≠ msg.id := by
    intro msg hq d hd
    have hne : (getMessagesOlderThan s (now - ttl)).isEmpty = false := by
      cases h : getMessagesOlderThan s (now - ttl) with
      | nil => rw [h] at hq; cases hq
      | cons a l => rfl
    simp only [cleanupOldMessages, hne, Bool.false_eq_true, if_false] at hd
    exact sweepFold_removes del (getMessagesOlderThan s (now - ttl)) (s, 0) msg hq d hd
  refine ⟨hmain, ?_⟩
  intro msg hmem hsent httl
  have hold : msg.sentAt < now - ttl := by omega
  have hq : msg ∈ getMessagesOlderThan s (now - ttl) :=
    List.mem_filter.mpr ⟨hmem, by simpa using hold⟩
  exact ⟨hq, hmain msg hq⟩

/-- C5 witness: a message sent at 80 with now = 100 and TTL = 10 is
returned by the query at cutoff 90 and is untracked by one sweep both when
the transport delete always succeeds (via the 2×TTL clause) and when it
always fails (via the universal clause at the queried message). -/
theorem sweep_untracks_regardless_of_delete_witness :
    ((⟨1, 5, 77, 80⟩ : BotMessage) ∈ getMessagesOlderThan [⟨1, 5, 77, 80⟩] (100 - 10) ∧
      ∀ d ∈ (cleanupOldMessages (fun _ _ => true) 100 10 [⟨1, 5, 77, 80⟩]).1, d.id ≠ 1) ∧
    (∀ d ∈ (cleanupOldMessages (fun _ _ => false) 100 10 [⟨1, 5, 77, 80⟩]).1, d.id ≠ 1) :=
  ⟨(sweep_untracks_regardless_of_delete (fun _ _ => true) 100 10 [⟨1, 5, 77, 80⟩]).2
      ⟨1, 5, 77, 80⟩ (by decide) (by decide) (by decide),
    (sweep_untracks_regardless_of_delete (fun _ _ => false) 100 10 [⟨1, 5, 77, 80⟩]).1
      ⟨1, 5, 77, 80⟩ (by decide)⟩

theorem setUserSettings_mem {now : Int} {newId : Nat} {chatId userId : Int}
    {rt tz : String} {s : SettingsStore} (d : SettingsDoc)
    (hd : d ∈ setUserSettings now newId chatId userId rt tz s) :
    d ∈ s ∨ d.reminderTime = rt := by
  unfold setUserSettings at hd
  revert hd
  cases hup : updateFirst (fun d => d.chatId == chatId)
      (fun d => { d with userId := userId, reminderTime := rt, timezone := tz, updatedAt := now }) s with
  | none =>
    intro hd
    rcases List.mem_append.mp hd with h | h
    · exact Or.inl h
    · right
      rw [List.mem_singleton.mp h]
  | some s1 =>
    intro hd
    rcases updateFirst_mem hup hd with h | ⟨d0, hd0, hp, rfl⟩
    · exact Or.inl h
    · exact Or.inr rfl

/-- C7 counterexample: the string 9:00 does not match the strict two-digit
HH:MM pattern of the spec invariant, yet isValidTimeFormat accepts it and
handleSetReminder performs the settings write, storing it verbatim. -/
theorem time_format_lax_cex :
    specMatchesHHMM "9:00" = false ∧
    isValidTimeFormat "9:00" = true ∧
    handleSetReminder (fun _ => true) 0 1 7 8 ["9:00"] []
      = [⟨1, 7, 8, "9:00", "UTC", 0, 0⟩] :=
  ⟨by decide, by decide, by decide⟩

/-- C7 (amended): the settings-write boundary rejects a reminder-time
string — synchronously, writing nothing — exactly when the source's
isValidTimeFormat fails: two colon-separated fields, each parsed as an
optionally signed decimal integer, hour in 0..23 and minute in 0..59.
This is laxer than the two-digit HH:MM pattern (9:00 is accepted and
stored verbatim); consequently every record the handler writes has a
reminderTime satisfying isValidTimeFormat, not necessarily the strict
pattern. -/
theorem handleSetReminder_validation (validTz : String → Bool) (now : Int) (newId : Nat)
    (chatId userId : Int) (args : List String) (s : SettingsStore) :
    (∀ rt rest, args = rt :: rest → isValidTimeFormat rt = false →
      handleSetReminder validTz now newId chatId userId args s = s) ∧
    (∀ d ∈ handleSetReminder validTz now newId chatId userId args s,
      d ∈ s ∨ isValidTimeFormat d.reminderTime = true) := by
  constructor
  · intro rt rest harg hbad
    subst harg
    simp [handleSetReminder, hbad]
  · intro d hd
    cases args with
    | nil => exact Or.inl hd
    | cons rt rest =>
      by_cases hv : isValidTimeFormat rt = true
      · cases rest with
        | nil =>
          simp only [handleSetReminder, hv, Bool.not_true, Bool.false_eq_true, if_false] at hd
          rcases setUserSettings_mem d hd with h | h
          · exact Or.inl h
          · exact Or.inr (by rw [h]; exact hv)
        | cons tz more =>
          by_cases htz : validTz tz = true
          · simp only [handleSetReminder, hv, htz, Bool.not_true, Bool.false_eq_true,
              if_false] at hd
            rcases setUserSettings_mem d hd with h | h
            · exact Or.inl h
            · exact Or.inr (by rw [h]; exact hv)
          · have htzf : validTz tz = false := by simpa using htz
            simp only [handleSetReminder, hv, htzf, Bool.not_true, Bool.not_false,
              Bool.false_eq_true, if_false, if_true] at hd
            exact Or.inl hd
      · have hbf : isValidTimeFormat rt = false := by simpa using hv
        simp only [handleSetReminder, hbf, Bool.not_false, if_true] at hd
        exact Or.inl hd

/-- C7 witness: a malformed reminder time (hour 99) is rejected with no
settings write. -/
theorem handleSetReminder_validation_witness :
    handleSetReminder (fun _ => true) 0 1 7 8 ["99:00"] [] = [] :=
  (handleSetReminder_validation (fun _ => true) 0 1 7 8 ["99:00"] []).1 "99:00" [] rfl (by decide)

end Nagger
